import Mathlib

/-!
Shallow embedding of the dovewing tiered user cache (core.go of the
eureka repository): the `PlatformUser` entity, the Discord adapter's
`ValidateId`, the orchestrator `GetUser` with its inner `cachedReturn`
persist-through closure, and the invalidation operation `ClearUser`.

External effects (redis, postgres, the platform connection, goroutine
spawns) are modelled by an explicit environment `Env` that fixes the
outcome of every external call the code can make, and an `Effects`
record that logs the I/O the code actually performs.  The platform is
assumed already initialized (`Initted() = true`), so the lazy
`InitPlatform` branch at the top of `GetUser`/`ClearUser` is a no-op.
-/

deriving instance DecidableEq for Except

namespace Dovewing

/-- Presence status of a platform user (dovetypes.PlatformStatus). -/
inductive PlatformStatus where
  | online
  | idle
  | dnd
  | offline
deriving DecidableEq, Repr

/-- The canonical resolved identity record (dovetypes.PlatformUser).
`ExtraData` is `map[string]any` in Go; the orchestrator only ever
writes string values into it, so it is modelled as an association
list of strings. -/
structure PlatformUser where
  ID : String
  Username : String
  DisplayName : String
  Avatar : String
  Bot : Bool
  Status : PlatformStatus
  Flags : List String
  ExtraData : List (String × String)
deriving DecidableEq, Repr

/-- Bytes stored under the fast-cache key: either bytes that
`json.Unmarshal` decodes to a `PlatformUser`, or bytes that fail to
decode. -/
inductive CacheBytes where
  | good (u : PlatformUser)
  | corrupt
deriving DecidableEq, Repr

/-- A row of the persistent table `internal_user_cache__<platform>`
(minus the `id` key it is looked up by).  Timestamps are naturals. -/
structure PgRow where
  username : String
  display_name : String
  avatar : String
  bot : Bool
  created_at : Nat
  last_updated : Nat
deriving DecidableEq, Repr

/-- Errors `GetUser` can return, one constructor per distinct
`return nil, err` site in core.go. -/
inductive DoveErr where
  | userNotFound
  | probeFailed (msg : String)
  | middlewareFailed (i : Nat) (msg : String)
  | pgUpsertFailed
  | pgReadFailed
  | remoteFetchFailed (msg : String)
deriving DecidableEq, Repr

/-- Environment fixing the outcome of every external call during one
`GetUser` invocation.  A middleware in Go takes the platform as first
argument; the platform is a fixed parameter of the whole call, so it
is dropped here. -/
structure Env where
  middlewares : List (PlatformUser → Except String PlatformUser)
  UserExpiryTime : Nat
  now : Nat
  platformName : String
  /-- result of `platform.PlatformSpecificCache` (live-state probe) -/
  probe : Except String (Option PlatformUser)
  /-- fast-cache entry under the derived key; `none` covers both a
  missing key and a redis `Get` error, which core.go treats alike -/
  redis : Option CacheBytes
  /-- whether the `SELECT COUNT(*)` existence query succeeds -/
  pgCountOk : Bool
  /-- persistent row stored for this id, if any -/
  pgRow : Option PgRow
  /-- whether the `SELECT last_updated` query succeeds -/
  pgTimeOk : Bool
  /-- whether the `SELECT username, display_name, ...` query succeeds -/
  pgSelectOk : Bool
  /-- whether the upsert `INSERT ... ON CONFLICT` statement succeeds -/
  pgUpsertOk : Bool
  /-- result of `platform.GetUser` (remote fetch) -/
  remote : Except String PlatformUser

/-- Log of the I/O performed by one invocation: fast-cache reads and
writes, persistent-store reads and issued upsert statements, remote
fetches, background refresh tasks spawned, and middleware calls.
A redis write records (key, value, ttl); a pg write records the
columns of the upsert (id, username, display_name, avatar, bot). -/
structure Effects where
  redisReads : Nat
  redisWrites : List (String × PlatformUser × Nat)
  pgReads : Nat
  pgWrites : List (String × String × String × String × Bool)
  remoteFetches : Nat
  bgTasks : Nat
  mwCalls : Nat
deriving DecidableEq, Repr

/-- No I/O yet. -/
def noFx : Effects := ⟨0, [], 0, [], 0, 0, 0⟩

/-- Sequential composition of two I/O logs. -/
def Effects.merge (a b : Effects) : Effects :=
  ⟨a.redisReads + b.redisReads, a.redisWrites ++ b.redisWrites,
   a.pgReads + b.pgReads, a.pgWrites ++ b.pgWrites,
   a.remoteFetches + b.remoteFetches, a.bgTasks + b.bgTasks,
   a.mwCalls + b.mwCalls⟩

/-- The fast-cache key `"uobj__" + platformName + ":" + id`. -/
def redisKey (platformName id : String) : String :=
  "uobj__" ++ platformName ++ ":" ++ id

/-- Decimal digit run of `strconv.ParseUint`: all characters must be
digits, the accumulated value is returned. -/
def parseDigits (cs : List Char) (acc : Nat) : Option Nat :=
  match cs with
  | [] => some acc
  | c :: rest =>
    if c.isDigit then parseDigits rest (acc * 10 + (c.toNat - 48)) else none

/-- Go's `strconv.ParseUint(s, 10, 64)`: digits only, non-empty,
value below 2^64. -/
def parseUint64 (s : String) : Option Nat :=
  match s.data with
  | [] => none
  | cs =>
    match parseDigits cs 0 with
    | none => none
    | some n => if n < 2 ^ 64 then some n else none

/-- DiscordState.ValidateId: require a parseable uint64 and a length
strictly between 16 and 21 (exclusive / inclusive as in the Go
condition `len(id) <= 16 || len(id) > 20`). -/
def ValidateId (id : String) : Except String String :=
  match parseUint64 id with
  | none => .error "strconv parse error"
  | some _ =>
    if id.length ≤ 16 || id.length > 20 then .error "invalid snowflake"
    else .ok id

/-- The middleware loop inside `cachedReturn`: apply each middleware in
registration order starting at index `i`, stopping at the first error.
Returns the outcome together with the number of middleware calls made. -/
def runMiddlewares (mws : List (PlatformUser → Except String PlatformUser))
    (i : Nat) (u : PlatformUser) :
    Except (Nat × String) PlatformUser × Nat :=
  match mws with
  | [] => (.ok u, 0)
  | mw :: rest =>
    match mw u with
    | .error e => (.error (i, e), 1)
    | .ok u2 =>
      let r := runMiddlewares rest (i + 1) u2
      (r.1, r.2 + 1)

/-- Tail of the `cachedReturn` closure after the display-name default:
run the middleware pipeline, upsert the persistent row, and
(json.Marshal of the model user never fails) write the fast-cache
entry with the configured TTL, whose own error the code ignores. -/
def persistStage (env : Env) (id : String) (u1 : PlatformUser) :
    Except DoveErr PlatformUser × Effects :=
  let mwr := runMiddlewares env.middlewares 0 u1
  match mwr.1 with
  | .error ie =>
    (.error (.middlewareFailed ie.1 ie.2), { noFx with mwCalls := mwr.2 })
  | .ok u2 =>
    if env.pgUpsertOk then
      (.ok u2,
       { noFx with
           mwCalls := mwr.2
           pgWrites := [(u2.ID, u2.Username, u2.DisplayName, u2.Avatar, u2.Bot)]
           redisWrites := [(redisKey env.platformName id, u2, env.UserExpiryTime)] })
    else
      (.error .pgUpsertFailed,
       { noFx with
           mwCalls := mwr.2
           pgWrites := [(u2.ID, u2.Username, u2.DisplayName, u2.Avatar, u2.Bot)] })

/-- The `cachedReturn` closure of core.go `GetUser`: reject `nil`,
default an empty display name to the username, then `persistStage`. -/
def cachedReturn (env : Env) (id : String) (u : Option PlatformUser) :
    Except DoveErr PlatformUser × Effects :=
  match u with
  | none => (.error .userNotFound, noFx)
  | some u0 =>
    persistStage env id
      (if u0.DisplayName = "" then { u0 with DisplayName := u0.Username } else u0)

/-- Remote-fetch step of core.go `GetUser` (lines 233-240): call the
platform's remote `GetUser` and persist-through on success. -/
def remoteStage (env : Env) (id : String) : Except DoveErr PlatformUser × Effects :=
  let fx : Effects := { noFx with remoteFetches := 1 }
  match env.remote with
  | .error e => (.error (.remoteFetchFailed e), fx)
  | .ok user =>
    let r := cachedReturn env id (some user)
    (r.1, fx.merge r.2)

/-- Persistent-store step of core.go `GetUser` (lines 162-231): the
`SELECT COUNT(*)` existence check, whose error is warned about and
skipped (never fail a fetch because of the internal cache table); on a
hit, the `SELECT last_updated` staleness check that spawns the
background refresh when `time.Since(last_updated)` strictly exceeds
`UserExpiryTime`, then the row select and the persist-through of the
row data with status offline; on a miss or a failed count query, fall
through to `remoteStage`. -/
def pgStage (env : Env) (id : String) : Except DoveErr PlatformUser × Effects :=
  let fx1 : Effects := { noFx with pgReads := 1 }
  match env.pgCountOk, env.pgRow with
  | true, some row =>
    let fx2 := fx1.merge { noFx with pgReads := 1 }
    if env.pgTimeOk then
      let stale := env.UserExpiryTime < env.now - row.last_updated
      let fx3 := fx2.merge
        { noFx with
            pgReads := 1
            bgTasks := if stale then 1 else 0 }
      if env.pgSelectOk then
        let r := cachedReturn env id (some
          { ID := id
            Username := row.username
            DisplayName := row.display_name
            Avatar := row.avatar
            Bot := row.bot
            Status := .offline
            Flags := []
            ExtraData := [("cache", "pg")] })
        (r.1, fx3.merge r.2)
      else
        (.error .pgReadFailed, fx3)
    else
      (.error .pgReadFailed, fx2)
  | _, _ =>
    let r := remoteStage env id
    (r.1, fx1.merge r.2)

/-- core.go `GetUser`, for an already-initialized platform: live-state
probe, then fast cache (a hit decodes and returns directly, replacing
`ExtraData`), then the persistent-store / remote-fetch stages. -/
def GetUser (env : Env) (id : String) : Except DoveErr PlatformUser × Effects :=
  match env.probe with
  | .error e => (.error (.probeFailed e), noFx)
  | .ok (some uCached) => cachedReturn env id (some uCached)
  | .ok none =>
    -- redis Get of the derived key
    let fx1 : Effects := { noFx with redisReads := 1 }
    match env.redis with
    | some (.good user) =>
      (.ok { user with ExtraData := [("cache", "redis")] }, fx1)
    | _ =>
      let r := pgStage env id
      (r.1, fx1.merge r.2)

/-- Tier selector for `ClearUser` (core.go `ClearFrom`). -/
inductive ClearFrom where
  | iuc
  | redis
deriving DecidableEq, Repr

/-- Environment of one `ClearUser` invocation.  `redisHas` records
whether a fast-cache entry exists; core.go never consults it (redis
`Del` succeeds whether or not the key exists), it is part of the model
only to state claims about store contents. -/
structure ClearEnv where
  pgCountOk : Bool
  pgHas : Bool
  pgDeleteOk : Bool
  redisHas : Bool
  redisDelOk : Bool
deriving DecidableEq, Repr

/-- core.go `ClearUser`, for an already-initialized platform: an empty
selection means all tiers; the persistent tier is deleted and recorded
only when the existence count is positive; the redis tier is deleted
unconditionally and always recorded when the `Del` call succeeds. -/
def ClearUser (env : ClearEnv) (req : List ClearFrom) :
    Except String (List ClearFrom) :=
  let step1 : Except String (List ClearFrom) :=
    if req = [] ∨ ClearFrom.iuc ∈ req then
      if env.pgCountOk then
        if env.pgHas then
          if env.pgDeleteOk then .ok [ClearFrom.iuc]
          else .error "pg delete failed"
        else .ok []
      else .error "pg count failed"
    else .ok []
  match step1 with
  | .error e => .error e
  | .ok cleared =>
    if req = [] ∨ ClearFrom.redis ∈ req then
      if env.redisDelOk then .ok (cleared ++ [ClearFrom.redis])
      else .error "redis del failed"
    else .ok cleared


/-! Concrete users, rows and environments used by witnesses and
counterexamples. -/

def uAda : PlatformUser :=
  ⟨"123456789012345678", "ada", "", "http://x/a.png", false, .offline, [], []⟩

def uBob : PlatformUser :=
  ⟨"9", "bob", "Bob", "http://x/b.png", false, .online, [], []⟩

def uCache : PlatformUser :=
  ⟨"77", "dave", "Dave", "http://x/d.png", false, .online, ["staff"],
   [("cache", "pg"), ("nickname", "dd")]⟩

def uTwelve : PlatformUser :=
  ⟨"12", "eve", "", "http://x/e.png", false, .offline, [], []⟩

def rowCarol : PgRow := ⟨"carol", "Carol", "http://x/c.png", false, 0, 0⟩

def baseEnv : Env :=
  { middlewares := []
    UserExpiryTime := 100
    now := 0
    platformName := "discord"
    probe := .ok none
    redis := none
    pgCountOk := true
    pgRow := none
    pgTimeOk := true
    pgSelectOk := true
    pgUpsertOk := true
    remote := .ok uAda }

/-- Environment whose single middleware always fails while the probe
resolves the user. -/
def envMw : Env :=
  { baseEnv with
      probe := .ok (some uBob)
      middlewares := [fun _ => .error "boom"] }

/-- Environment for the invalid identity "12": probe absent, caches
empty, remote fetch succeeding. -/
def envTwelve : Env := { baseEnv with remote := .ok uTwelve }

/-- ClearUser environment with the identity present only in the
persistent tier. -/
def clearEnvPgOnly : ClearEnv :=
  { pgCountOk := true
    pgHas := true
    pgDeleteOk := true
    redisHas := false
    redisDelOk := true }

/-! Helper lemmas about the stages, shared by the claim theorems. -/

lemma persistStage_redisReads (env : Env) (id : String) (u1 : PlatformUser) :
    (persistStage env id u1).2.redisReads = 0 := by
  unfold persistStage
  rcases h : (runMiddlewares env.middlewares 0 u1).1 with ie | u2
  · simp [h, noFx]
  · simp [h, noFx]; split <;> simp [noFx]

lemma persistStage_pgReads (env : Env) (id : String) (u1 : PlatformUser) :
    (persistStage env id u1).2.pgReads = 0 := by
  unfold persistStage
  rcases h : (runMiddlewares env.middlewares 0 u1).1 with ie | u2
  · simp [h, noFx]
  · simp [h, noFx]; split <;> simp [noFx]

lemma persistStage_remoteFetches (env : Env) (id : String) (u1 : PlatformUser) :
    (persistStage env id u1).2.remoteFetches = 0 := by
  unfold persistStage
  rcases h : (runMiddlewares env.middlewares 0 u1).1 with ie | u2
  · simp [h, noFx]
  · simp [h, noFx]; split <;> simp [noFx]

lemma persistStage_bgTasks (env : Env) (id : String) (u1 : PlatformUser) :
    (persistStage env id u1).2.bgTasks = 0 := by
  unfold persistStage
  rcases h : (runMiddlewares env.middlewares 0 u1).1 with ie | u2
  · simp [h, noFx]
  · simp [h, noFx]; split <;> simp [noFx]

lemma cachedReturn_redisReads (env : Env) (id : String) (u : Option PlatformUser) :
    (cachedReturn env id u).2.redisReads = 0 := by
  cases u with
  | none => simp [cachedReturn, noFx]
  | some u0 => simpa [cachedReturn] using persistStage_redisReads env id _

lemma cachedReturn_pgReads (env : Env) (id : String) (u : Option PlatformUser) :
    (cachedReturn env id u).2.pgReads = 0 := by
  cases u with
  | none => simp [cachedReturn, noFx]
  | some u0 => simpa [cachedReturn] using persistStage_pgReads env id _

lemma cachedReturn_remoteFetches (env : Env) (id : String) (u : Option PlatformUser) :
    (cachedReturn env id u).2.remoteFetches = 0 := by
  cases u with
  | none => simp [cachedReturn, noFx]
  | some u0 => simpa [cachedReturn] using persistStage_remoteFetches env id _

lemma cachedReturn_bgTasks (env : Env) (id : String) (u : Option PlatformUser) :
    (cachedReturn env id u).2.bgTasks = 0 := by
  cases u with
  | none => simp [cachedReturn, noFx]
  | some u0 => simpa [cachedReturn] using persistStage_bgTasks env id _

lemma persistStage_mwFailed (env : Env) (id : String) (u1 : PlatformUser) (i : Nat) (e : String)
    (h : (persistStage env id u1).1 = .error (.middlewareFailed i e)) :
    (persistStage env id u1).2.pgWrites = [] ∧ (persistStage env id u1).2.redisWrites = [] := by
  unfold persistStage at h ⊢
  rcases hm : (runMiddlewares env.middlewares 0 u1).1 with ie | u2
  · simp [hm, noFx]
  · simp [hm] at h
    split at h <;> simp_all

lemma cachedReturn_mwFailed (env : Env) (id : String) (u : Option PlatformUser) (i : Nat) (e : String)
    (h : (cachedReturn env id u).1 = .error (.middlewareFailed i e)) :
    (cachedReturn env id u).2.pgWrites = [] ∧ (cachedReturn env id u).2.redisWrites = [] := by
  cases u with
  | none => simp [cachedReturn] at h
  | some u0 =>
    simp only [cachedReturn] at h ⊢
    exact persistStage_mwFailed env id _ i e h

lemma remoteStage_mwFailed (env : Env) (id : String) (i : Nat) (e : String)
    (h : (remoteStage env id).1 = .error (.middlewareFailed i e)) :
    (remoteStage env id).2.pgWrites = [] ∧ (remoteStage env id).2.redisWrites = [] := by
  unfold remoteStage at h ⊢
  rcases hr : env.remote with re | ru
  · simp [hr] at h
  · simp only [hr] at h ⊢
    simp only [Effects.merge, noFx]
    have := cachedReturn_mwFailed env id (some ru) i e (by simpa using h)
    simp [this.1, this.2]

lemma pgStage_mwFailed (env : Env) (id : String) (i : Nat) (e : String)
    (h : (pgStage env id).1 = .error (.middlewareFailed i e)) :
    (pgStage env id).2.pgWrites = [] ∧ (pgStage env id).2.redisWrites = [] := by
  unfold pgStage at h ⊢
  rcases hc : env.pgCountOk with _ | _ <;> rcases hrow : env.pgRow with _ | row
  case false.none | false.some =>
    simp only [hc, hrow] at h ⊢
    simp only [Effects.merge, noFx]
    have := remoteStage_mwFailed env id i e (by simpa using h)
    simp [this.1, this.2]
  case true.none =>
    simp only [hc, hrow] at h ⊢
    simp only [Effects.merge, noFx]
    have := remoteStage_mwFailed env id i e (by simpa using h)
    simp [this.1, this.2]
  case true.some =>
    simp only [hc, hrow] at h ⊢
    rcases ht : env.pgTimeOk with _ | _
    · simp [ht] at h
    · simp only [ht, if_true] at h ⊢
      rcases hs : env.pgSelectOk with _ | _
      · simp [hs] at h
      · simp only [hs, if_true] at h ⊢
        simp only [Effects.merge, noFx]
        have := cachedReturn_mwFailed env id _ i e (by simpa using h)
        simp [this.1, this.2]

lemma persistStage_nil_mw (env : Env) (id : String) (u1 : PlatformUser)
    (hm : env.middlewares = []) :
    (persistStage env id u1).1 =
      (if env.pgUpsertOk then .ok u1 else .error .pgUpsertFailed) := by
  unfold persistStage
  rw [hm]
  simp only [runMiddlewares]
  split <;> simp_all


/-- Fast-cache hit shape of `GetUser`: shared by several theorems. -/
lemma GetUser_redis_good (env : Env) (id : String) (u : PlatformUser)
    (hp : env.probe = .ok none) (hr : env.redis = some (.good u)) :
    GetUser env id =
      (.ok { u with ExtraData := [("cache", "redis")] },
       { noFx with redisReads := 1 }) := by
  simp [GetUser, hp, hr]

/-- Remote stage always performs exactly one remote fetch. -/
lemma remoteStage_remoteFetches (env : Env) (id : String) :
    (remoteStage env id).2.remoteFetches = 1 := by
  unfold remoteStage
  rcases h : env.remote with e | u
  · simp [h, noFx]
  · simp [h, noFx, Effects.merge, cachedReturn_remoteFetches]

/-- Claim C7: when the adapter live-state probe returns an error,
`GetUser` aborts with that error (it is not demoted to absent) and
performs no fast-cache read, no persistent-store query, no remote
fetch and no write afterwards. -/
theorem getUser_probe_error_aborts (env : Env) (id : String) (e : String)
    (h : env.probe = .error e) :
    GetUser env id = (.error (.probeFailed e), noFx) := by
  simp [GetUser, h]

/-- Witness for C7: a concrete probe failure aborts with zero I/O. -/
theorem getUser_probe_error_aborts_witness :
    GetUser { baseEnv with probe := .error "probe down" } "9" =
      (.error (.probeFailed "probe down"), noFx) :=
  getUser_probe_error_aborts { baseEnv with probe := .error "probe down" } "9"
    "probe down" rfl

/-- Claim C5: a fast-cache hit (probe absent, key present, bytes
decode) returns the decoded user directly: no middleware call, no
persistent-store read or write, no fast-cache write — the path is
read-only for both tiers, so `last_updated` is not refreshed. -/
theorem getUser_fastCacheHit_readonly (env : Env) (id : String) (u : PlatformUser)
    (hp : env.probe = .ok none) (hr : env.redis = some (.good u)) :
    GetUser env id =
      (.ok { u with ExtraData := [("cache", "redis")] },
       { noFx with redisReads := 1 }) :=
  GetUser_redis_good env id u hp hr

/-- Witness for C5 at a concrete cached user. -/
theorem getUser_fastCacheHit_readonly_witness :
    GetUser { baseEnv with redis := some (.good uCache) } "77" =
      (.ok { uCache with ExtraData := [("cache", "redis")] },
       { noFx with redisReads := 1 }) :=
  getUser_fastCacheHit_readonly { baseEnv with redis := some (.good uCache) }
    "77" uCache rfl rfl

/-- Claim C9: a `GetUser` answered from the fast cache returns a user
whose `ExtraData` is exactly the one-entry map cache ↦ redis,
regardless of the `ExtraData` serialized in the stored entry. -/
theorem getUser_fastCacheHit_extraData_replaced (env : Env) (id : String)
    (u v : PlatformUser)
    (hp : env.probe = .ok none) (hr : env.redis = some (.good u))
    (hv : (GetUser env id).1 = .ok v) :
    v.ExtraData = [("cache", "redis")] := by
  rw [GetUser_redis_good env id u hp hr] at hv
  have hveq : { u with ExtraData := [("cache", "redis")] } = v := by
    simpa using hv
  rw [← hveq]

/-- Witness for C9: the stored entry carries cache ↦ pg and a
nickname, the returned user carries exactly cache ↦ redis. -/
theorem getUser_fastCacheHit_extraData_replaced_witness :
    ({ uCache with ExtraData := [("cache", "redis")] } : PlatformUser).ExtraData =
      [("cache", "redis")] :=
  getUser_fastCacheHit_extraData_replaced
    { baseEnv with redis := some (.good uCache) } "77" uCache
    { uCache with ExtraData := [("cache", "redis")] } rfl rfl (by decide)

/-- Claim C6: when the persistent-store existence check fails, the
failure is degraded (warn) and the call continues to the remote-fetch
step — exactly one remote fetch happens and the outcome is that of the
remote stage, never a failure caused by the persistent store. -/
theorem getUser_pgUnavailable_continues_to_remote (env : Env) (id : String)
    (hp : env.probe = .ok none)
    (hr : env.redis = none ∨ env.redis = some .corrupt)
    (hc : env.pgCountOk = false) :
    (GetUser env id).1 = (remoteStage env id).1 ∧
    (GetUser env id).2.remoteFetches = 1 := by
  rcases hr with hr | hr <;>
  · simp only [GetUser, pgStage, hp, hr, hc]
    simp [Effects.merge, noFx, remoteStage_remoteFetches]

/-- Witness for C6: concrete store outage still remote-fetches. -/
theorem getUser_pgUnavailable_continues_to_remote_witness :
    (GetUser { baseEnv with pgCountOk := false } "9").1 =
      (remoteStage { baseEnv with pgCountOk := false } "9").1 ∧
    (GetUser { baseEnv with pgCountOk := false } "9").2.remoteFetches = 1 :=
  getUser_pgUnavailable_continues_to_remote { baseEnv with pgCountOk := false }
    "9" rfl (Or.inl rfl) rfl

/-- Claim C4 (amended): on a persistent-store hit, the background
refresh task is spawned iff the age of `last_updated` STRICTLY exceeds
the expiry window (`time.Since(lastUpdated) > UserExpiryTime`); an age
exactly equal to the window spawns none. -/
theorem getUser_bgTask_iff_strictly_stale (env : Env) (id : String) (row : PgRow)
    (hp : env.probe = .ok none)
    (hr : env.redis = none ∨ env.redis = some .corrupt)
    (hc : env.pgCountOk = true) (hrow : env.pgRow = some row)
    (ht : env.pgTimeOk = true) :
    (GetUser env id).2.bgTasks =
      (if env.UserExpiryTime < env.now - row.last_updated then 1 else 0) := by
  rcases hr with hr | hr <;>
  · simp only [GetUser, pgStage, hp, hr, hc, hrow, ht]
    simp [Effects.merge, noFx, cachedReturn_bgTasks]
    split <;> simp [cachedReturn_bgTasks]

/-- Witness for C4 (amended): a strictly stale row (age 201 with
expiry window 100) spawns exactly one background refresh. -/
theorem getUser_bgTask_iff_strictly_stale_witness :
    (GetUser { baseEnv with pgRow := some rowCarol, now := 201 } "9").2.bgTasks = 1 := by
  rw [getUser_bgTask_iff_strictly_stale
    { baseEnv with pgRow := some rowCarol, now := 201 } "9" rowCarol
    rfl (Or.inl rfl) rfl rfl rfl]
  decide

/-- Counterexample for C4 as stated: a row whose age exactly equals
the expiry window (age 100, window 100) spawns NO background refresh,
contradicting the claimed age-greater-or-equal trigger. -/
theorem getUser_exact_expiry_no_refresh :
    ({ baseEnv with pgRow := some rowCarol, now := 100 } : Env).now -
        rowCarol.last_updated =
      ({ baseEnv with pgRow := some rowCarol, now := 100 } : Env).UserExpiryTime ∧
    (GetUser { baseEnv with pgRow := some rowCarol, now := 100 } "9").2.bgTasks = 0 := by
  decide


/-- Counterexample for C3 as stated: with a failing middleware the
resolved user is NOT returned to the caller — `GetUser` returns the
`middlewareFailed` error (and performs no tier write). -/
theorem getUser_middleware_error_not_returned :
    (GetUser envMw "9").1 = .error (.middlewareFailed 0 "boom") ∧
    (GetUser envMw "9").2.pgWrites = [] ∧
    (GetUser envMw "9").2.redisWrites = [] := by
  decide

/-- Claim C3 (amended): whenever `GetUser` surfaces a middleware
failure, the persist step was aborted — no persistent-store upsert was
issued and no fast-cache entry was written; the caller receives only
the `middlewareFailed` error, not the resolved user. -/
theorem getUser_middlewareFailed_aborts_persist (env : Env) (id : String)
    (i : Nat) (e : String)
    (h : (GetUser env id).1 = .error (.middlewareFailed i e)) :
    (GetUser env id).2.pgWrites = [] ∧ (GetUser env id).2.redisWrites = [] := by
  rcases hp : env.probe with pe | pu
  · simp [GetUser, hp] at h
  rcases pu with _ | u
  case ok.some =>
    simp only [GetUser, hp] at h ⊢
    exact cachedReturn_mwFailed env id _ i e h
  case ok.none =>
    rcases hred : env.redis with _ | cb
    case none =>
      simp only [GetUser, hp, hred] at h ⊢
      simp only [Effects.merge, noFx]
      have hw := pgStage_mwFailed env id i e (by simpa using h)
      simp [hw.1, hw.2]
    case some =>
      rcases cb with u | _
      case good =>
        simp [GetUser, hp, hred] at h
      case corrupt =>
        simp only [GetUser, hp, hred] at h ⊢
        simp only [Effects.merge, noFx]
        have hw := pgStage_mwFailed env id i e (by simpa using h)
        simp [hw.1, hw.2]

/-- Witness for C3 (amended) at the concrete failing middleware. -/
theorem getUser_middlewareFailed_aborts_persist_witness :
    (GetUser envMw "9").2.pgWrites = [] ∧ (GetUser envMw "9").2.redisWrites = [] :=
  getUser_middlewareFailed_aborts_persist envMw "9" 0 "boom" (by decide)

/-- Claim C10: a `GetUser` resolved from the persistent store (fresh
or stale) that returns a user with no middleware installed always
reports status offline, since the table stores no status column. -/
theorem getUser_pgHit_status_offline (env : Env) (id : String) (row : PgRow)
    (v : PlatformUser)
    (hp : env.probe = .ok none)
    (hr : env.redis = none ∨ env.redis = some .corrupt)
    (hc : env.pgCountOk = true) (hrow : env.pgRow = some row)
    (hm : env.middlewares = [])
    (hv : (GetUser env id).1 = .ok v) :
    v.Status = .offline := by
  rcases ht : env.pgTimeOk with _ | _
  · rcases hr with hr | hr <;>
      simp [GetUser, pgStage, hp, hr, hc, hrow, ht] at hv
  rcases hs : env.pgSelectOk with _ | _
  · rcases hr with hr | hr <;>
      simp [GetUser, pgStage, hp, hr, hc, hrow, ht, hs] at hv
  have hv2 : (cachedReturn env id (some
      { ID := id, Username := row.username, DisplayName := row.display_name,
        Avatar := row.avatar, Bot := row.bot, Status := .offline,
        Flags := [], ExtraData := [("cache", "pg")] })).1 = .ok v := by
    rcases hr with hr | hr <;>
      simpa [GetUser, pgStage, hp, hr, hc, hrow, ht, hs] using hv
  simp only [cachedReturn] at hv2
  rw [persistStage_nil_mw env id _ hm] at hv2
  rcases hup : env.pgUpsertOk with _ | _ <;> rw [hup] at hv2
  · simp at hv2
  · simp at hv2
    rw [← hv2]
    split <;> rfl

/-- Witness for C10: a concrete fresh persistent hit returns status
offline. -/
theorem getUser_pgHit_status_offline_witness :
    ({ ID := "9", Username := "carol", DisplayName := "Carol",
       Avatar := "http://x/c.png", Bot := false, Status := .offline,
       Flags := [], ExtraData := [("cache", "pg")] } : PlatformUser).Status =
      .offline :=
  getUser_pgHit_status_offline { baseEnv with pgRow := some rowCarol } "9"
    rowCarol
    { ID := "9", Username := "carol", DisplayName := "Carol",
      Avatar := "http://x/c.png", Bot := false, Status := .offline,
      Flags := [], ExtraData := [("cache", "pg")] }
    rfl (Or.inl rfl) rfl rfl rfl (by decide)


/-- Claim C8: for a valid identity with probe absent, fast cache and
persistent store empty and no middleware, a successful remote fetch
whose user has an absent display name resolves to that user with
`display_name` defaulted to the username, upserts the persistent row,
and writes the fast-cache entry under the configured TTL. -/
theorem getUser_remote_miss_scenario (env : Env) (id : String) (ru : PlatformUser)
    (hval : ValidateId id = .ok id)
    (hp : env.probe = .ok none) (hr : env.redis = none)
    (hc : env.pgCountOk = true) (hrow : env.pgRow = none)
    (hm : env.middlewares = []) (hup : env.pgUpsertOk = true)
    (hrem : env.remote = .ok ru) (hdn : ru.DisplayName = "") :
    GetUser env id =
      (.ok { ru with DisplayName := ru.Username },
       { noFx with
           redisReads := 1
           pgReads := 1
           remoteFetches := 1
           pgWrites := [(ru.ID, ru.Username, ru.Username, ru.Avatar, ru.Bot)]
           redisWrites := [(redisKey env.platformName id,
                            { ru with DisplayName := ru.Username },
                            env.UserExpiryTime)] }) := by
  simp only [GetUser, pgStage, remoteStage, cachedReturn, persistStage,
    hp, hr, hc, hrow, hrem, hm, hup, hdn, runMiddlewares]
  simp [Effects.merge, noFx]

/-- Witness for C8: the spec scenario with identity
123456789012345678 and remote user ada. -/
theorem getUser_remote_miss_scenario_witness :
    GetUser baseEnv "123456789012345678" =
      (.ok { uAda with DisplayName := "ada" },
       { noFx with
           redisReads := 1
           pgReads := 1
           remoteFetches := 1
           pgWrites := [("123456789012345678", "ada", "ada", "http://x/a.png", false)]
           redisWrites := [("uobj__discord:123456789012345678",
                            { uAda with DisplayName := "ada" }, 100)] }) := by
  rw [getUser_remote_miss_scenario baseEnv "123456789012345678" uAda
    (by decide) rfl rfl rfl rfl rfl rfl rfl rfl]
  decide

/-- Claim C1: core.go `GetUser` never invokes the adapter
`ValidateId`; the identity "12" fails validation, yet `GetUser`
performs a fast-cache read, a persistent-store query and a remote
fetch, and returns the fetched user instead of a validation error. -/
theorem getUser_skips_ValidateId :
    ValidateId "12" = .error "invalid snowflake" ∧
    (GetUser envTwelve "12").2.redisReads = 1 ∧
    (GetUser envTwelve "12").2.pgReads = 1 ∧
    (GetUser envTwelve "12").2.remoteFetches = 1 ∧
    (GetUser envTwelve "12").1 = .ok { uTwelve with DisplayName := "eve" } := by
  decide

/-- Counterexample for C2 as stated: clearing only the fast-cache tier
for an identity present only in the persistent tier reports
`clearedFrom = [redis]`, not the claimed empty set — the redis tier is
recorded even though it held no entry. -/
theorem clearUser_records_redis_without_entry :
    clearEnvPgOnly.redisHas = false ∧
    clearEnvPgOnly.pgHas = true ∧
    ClearUser clearEnvPgOnly [ClearFrom.redis] = .ok [ClearFrom.redis] ∧
    ClearUser clearEnvPgOnly [ClearFrom.redis] ≠ .ok [] := by
  decide

/-- Claim C2 (amended): in a successful `ClearUser`, the persistent
tier appears in `clearedFrom` iff it was selected and actually held a
row, while the fast-cache tier appears iff it was selected — with no
regard to whether a fast-cache entry existed. -/
theorem clearUser_clearedFrom_characterization (env : ClearEnv)
    (req cleared : List ClearFrom)
    (h : ClearUser env req = .ok cleared) :
    (ClearFrom.iuc ∈ cleared ↔
      ((req = [] ∨ ClearFrom.iuc ∈ req) ∧ env.pgHas = true)) ∧
    (ClearFrom.redis ∈ cleared ↔ (req = [] ∨ ClearFrom.redis ∈ req)) := by
  unfold ClearUser at h
  by_cases h1 : (req = [] ∨ ClearFrom.iuc ∈ req) <;>
  by_cases h2 : (req = [] ∨ ClearFrom.redis ∈ req) <;>
  rcases hco : env.pgCountOk with _ | _ <;>
  rcases hh : env.pgHas with _ | _ <;>
  rcases hd : env.pgDeleteOk with _ | _ <;>
  rcases hrd : env.redisDelOk with _ | _ <;>
  simp_all
  all_goals subst h
  all_goals simp

/-- Witness for C2 (amended) at the spec scenario: select only the
fast-cache tier with the row only in the persistent tier. -/
theorem clearUser_clearedFrom_characterization_witness :
    (ClearFrom.iuc ∈ [ClearFrom.redis] ↔
      (([ClearFrom.redis] = ([] : List ClearFrom) ∨
          ClearFrom.iuc ∈ [ClearFrom.redis]) ∧ clearEnvPgOnly.pgHas = true)) ∧
    (ClearFrom.redis ∈ [ClearFrom.redis] ↔
      ([ClearFrom.redis] = ([] : List ClearFrom) ∨
        ClearFrom.redis ∈ [ClearFrom.redis])) :=
  clearUser_clearedFrom_characterization clearEnvPgOnly [ClearFrom.redis]
    [ClearFrom.redis] (by decide)

end Dovewing
